import Mathlib

/-!
Shallow embedding of the A2E avatar/video pipeline client (`src/main.py`):
the JSON data model, the status-polling loops `wait_until_avatar_ready` and
`wait_until_video_ready`, the URL extractor `_first_url_from`, and the
`run_pipeline` orchestration, together with theorems about them.
-/

namespace A2E

/-- JSON-like values, the shape of every parsed API response (`r.json()`).
Python tuples are folded into `arr`; numbers are modelled as integers. -/
inductive Json where
  | null
  | bool (b : Bool)
  | num (n : Int)
  | str (s : String)
  | arr (xs : List Json)
  | obj (fields : List (String × Json))

/-- Python truthiness of a JSON value: `None`, `False`, `0`, `""`, `[]`, `{}`
are falsy, everything else truthy. -/
def pyTruthy : Json → Bool
  | .null => false
  | .bool b => b
  | .num n => n != 0
  | .str s => s != ""
  | .arr xs => !xs.isEmpty
  | .obj fs => !fs.isEmpty

/-- Python `d.get(k)` on a dict: the value at `k`, or `None` when absent. -/
def jget (fs : List (String × Json)) (k : String) : Json :=
  (List.lookup k fs).getD .null

/-- Status extraction of the avatar poller, line 206 of `src/main.py`:
`(item.get("data") or {}).get("current_status")`.  `.error ()` models an
unhandled Python exception (`.get` on a non-dict); a missing key yields
`None` (`Json.null`). -/
def avatar_status : Json → Except Unit Json
  | .obj fs =>
    match (if pyTruthy (jget fs "data") then jget fs "data" else .obj []) with
    | .obj fs2 => .ok (jget fs2 "current_status")
    | _ => .error ()
  | _ => .error ()

/-- Status extraction of the video poller, line 296 of `src/main.py`:
`item.get("data")[0]['status']`.  Any shape other than a dict whose `data`
is a non-empty list whose first element is a dict with a `status` key raises
an unhandled Python exception (`TypeError` / `IndexError` / `KeyError`),
modelled as `.error ()`. -/
def video_status : Json → Except Unit Json
  | .obj fs =>
    match jget fs "data" with
    | .arr (x :: _) =>
      match x with
      | .obj fs2 =>
        match List.lookup "status" fs2 with
        | some v => .ok v
        | none => .error ()
      | _ => .error ()
    | _ => .error ()
  | _ => .error ()

/-- The three buckets a fetched status is classified into. -/
inductive StatusClass where
  | success
  | failure
  | pending
deriving DecidableEq, Repr

/-- Classification of a status value against the success / failure string
sets, in the order of the source (`if status in terminal_ok` first, then
`terminal_bad`, line 208-211 and 299-302).  Membership of an unhashable
value (list / dict) in a Python set raises `TypeError`, modelled as
`.error ()`; hashable non-strings are simply in neither set. -/
def classify (ok bad : List String) : Json → Except Unit StatusClass
  | .str s =>
    if s ∈ ok then .ok .success
    else if s ∈ bad then .ok .failure
    else .ok .pending
  | .arr _ => .error ()
  | .obj _ => .error ()
  | _ => .ok .pending

/-- Success statuses of the avatar poller (`terminal_ok`, line 202). -/
def avatarOk : List String := ["ready", "trained", "succeeded", "completed"]

/-- Failure statuses of the avatar poller (`terminal_bad`, line 203). -/
def avatarBad : List String := ["failed", "error"]

/-- Success statuses of the video poller (`terminal_ok`, line 290). -/
def videoOk : List String := ["ready", "success", "completed"]

/-- Failure statuses of the video poller (`terminal_bad`, line 291). -/
def videoBad : List String := ["failed", "error"]

/-- Extraction followed by classification: what one iteration of a polling
loop computes from the fetched item before deciding how to proceed. -/
def classifyFetched (extract : Json → Except Unit Json) (ok bad : List String)
    (item : Json) : Except Unit StatusClass :=
  match extract item with
  | .error e => .error e
  | .ok st => classify ok bad st

/-- Outcome of a polling loop, instrumented with the number of `fetch` calls
made and the number of `time.sleep` calls performed.
`success` returns the raw fetched item; `jobFailed` models the
`RuntimeError` raised on a failure status (carrying the raw item);
`timedOut` models the `TimeoutError`; `exn` models an unhandled Python
exception escaping status extraction / classification. -/
inductive PollOutcome where
  | success (item : Json) (fetches sleeps : Nat)
  | jobFailed (item : Json) (fetches sleeps : Nat)
  | timedOut (fetches sleeps : Nat)
  | exn (fetches sleeps : Nat)

/-- The `while True:` polling loop shared (line for line) by
`wait_until_avatar_ready` (lines 204-214) and `wait_until_video_ready`
(lines 293-306) of `src/main.py`:

    while True:
        item = fetch(n)                 -- n-th fetch
        status = extract(item)
        if status in ok: return item
        if status in bad: raise RuntimeError(...)
        if time.time() - start > timeout_s: raise TimeoutError(...)
        time.sleep(poll_s)

`elapsed n` is the value of `time.time() - start` at the deadline check of
iteration `n` (wall clock, abstract); `n` counts iterations from 0, so an
exit at iteration `n` has made `n + 1` fetches and `n` sleeps.  `fuel`
bounds the number of iterations the model runs; `none` means the bound was
exhausted (the loop is still running). -/
def pollAux (extract : Json → Except Unit Json) (ok bad : List String)
    (fetch : Nat → Json) (elapsed : Nat → Nat) (timeout : Nat) :
    Nat → Nat → Option PollOutcome
  | 0, _ => none
  | fuel + 1, n =>
    match classifyFetched extract ok bad (fetch n) with
    | .error _ => some (.exn (n + 1) n)
    | .ok .success => some (.success (fetch n) (n + 1) n)
    | .ok .failure => some (.jobFailed (fetch n) (n + 1) n)
    | .ok .pending =>
      if timeout < elapsed n then some (.timedOut (n + 1) n)
      else pollAux extract ok bad fetch elapsed timeout fuel (n + 1)

/-- `A2EClient.wait_until_avatar_ready` (lines 200-214 of `src/main.py`),
with the status fetch abstracted as the sequence `fetch` of responses. -/
def wait_until_avatar_ready (fetch : Nat → Json) (elapsed : Nat → Nat)
    (timeout : Nat) (fuel : Nat) : Option PollOutcome :=
  pollAux avatar_status avatarOk avatarBad fetch elapsed timeout fuel 0

/-- `A2EClient.wait_until_video_ready` (lines 273-306 of `src/main.py`),
with the status fetch abstracted as the sequence `fetch` of responses. -/
def wait_until_video_ready (fetch : Nat → Json) (elapsed : Nat → Nat)
    (timeout : Nat) (fuel : Nat) : Option PollOutcome :=
  pollAux video_status videoOk videoBad fetch elapsed timeout fuel 0

/-! ## The result extractor `_first_url_from` (lines 69-91 of `src/main.py`) -/

/-- ASCII whitespace, the relevant part of Python's `\s` and of
`str.strip()`. -/
def pySpace (c : Char) : Bool :=
  c == ' ' || c == '\t' || c == '\n' || c == '\r' || c == '\x0b' || c == '\x0c'

/-- Characters allowed inside a URL match: the regex class `[^\s\"']` of
`https?://[^\s\"']+` — anything but whitespace, a double quote or a single
quote. -/
def urlAllowed (c : Char) : Bool :=
  !(pySpace c || c == '"' || c == '\'')

/-- Match of the scheme part `https?://` at the head of `cs`: the number of
characters it consumes (the regex tries the greedy `https` first, then
backtracks to `http`). -/
def schemeSplit (cs : List Char) : Option Nat :=
  if List.isPrefixOf "https://".data cs then some 8
  else if List.isPrefixOf "http://".data cs then some 7
  else none

/-- `re.findall(r"https?://[^\s\"']+", s)` on the character list of `s`:
scan left to right; at each position try to match the scheme followed by a
non-empty maximal run of allowed characters; on a match, emit it and resume
after its end (matches are non-overlapping).  `fuel` bounds the scan steps;
`s.length` is always sufficient since every step consumes at least one
character. -/
def findallAux : Nat → List Char → List (List Char)
  | 0, _ => []
  | _ + 1, [] => []
  | fuel + 1, c :: cs =>
    match schemeSplit (c :: cs) with
    | none => findallAux fuel cs
    | some k =>
      let rest := (c :: cs).drop k
      let run := rest.takeWhile urlAllowed
      if run.isEmpty then findallAux fuel cs
      else ((c :: cs).take k ++ run) :: findallAux fuel (rest.drop run.length)

/-- All URL-shaped substrings of `s`, in order of occurrence. -/
def findUrls (s : String) : List String :=
  (findallAux s.data.length s.data).map String.mk

/-- Whether some position of `cs` starts a URL match: the scheme matches and
at least one allowed character follows (the `+` of the pattern). -/
def matchAt (cs : List Char) : Bool :=
  match schemeSplit cs with
  | some k => !((cs.drop k).takeWhile urlAllowed).isEmpty
  | none => false

/-- Whether `cs` contains any substring matching the URL pattern. -/
def containsUrl : List Char → Bool
  | [] => false
  | c :: cs => matchAt (c :: cs) || containsUrl cs

mutual
/-- The string leaves of a JSON value in the depth-first order of the
`collect` visitor of `_first_url_from` (lines 73-82 of `src/main.py`):
dict values in field order, list elements in order. -/
def stringLeaves : Json → List String
  | .str s => [s]
  | .arr xs => stringLeavesList xs
  | .obj fs => stringLeavesFields fs
  | _ => []

def stringLeavesList : List Json → List String
  | [] => []
  | j :: js => stringLeaves j ++ stringLeavesList js

def stringLeavesFields : List (String × Json) → List String
  | [] => []
  | (_, v) :: fs => stringLeaves v ++ stringLeavesFields fs
end

/-- The `urls` accumulator after `collect(obj)` (line 84 of `src/main.py`):
every URL-shaped substring of every string leaf, leaves in depth-first
order, matches within one leaf in occurrence order. -/
def collectUrls (o : Json) : List String :=
  (stringLeaves o).flatMap findUrls

/-- `u.lower().split("?", 1)[0].endswith(ext)` (line 89 of `src/main.py`):
does the path component of the lowercased URL end with `ext`?  (`ext`
itself is not lowercased by the source.) -/
def extMatches (u ext : String) : Bool :=
  List.isSuffixOf ext.data ((u.data.map Char.toLower).takeWhile (fun c => c != '?'))

/-- The preference loop of `_first_url_from` (lines 87-90): for each
extension in order, return the first accumulated URL matching it. -/
def pickByExt (urls : List String) : List String → Option String
  | [] => none
  | ext :: rest =>
    match urls.find? (fun u => extMatches u ext) with
    | some u => some u
    | none => pickByExt urls rest

/-- `_first_url_from` (lines 69-91 of `src/main.py`): collect all URLs,
prefer by extension order, otherwise fall back to the first URL found
(`urls[0] if urls else None`). -/
def _first_url_from (o : Json) (exts : List String) : Option String :=
  match pickByExt (collectUrls o) exts with
  | some u => some u
  | none => (collectUrls o).head?

/-! ## The orchestrator `run_pipeline` (lines 329-444 of `src/main.py`) -/

/-- Python `x == 0`: true for `0` and for `False`. -/
def pyEqZero : Json → Bool
  | .num n => n == 0
  | .bool b => !b
  | _ => false

/-- Python `x == None`. -/
def pyIsNone : Json → Bool
  | .null => true
  | _ => false

/-- Python `j.get(k)` where `j` is expected to be a dict; anything else
raises `AttributeError`, modelled as `.error ()`. -/
def dictGet (j : Json) (k : String) : Except Unit Json :=
  match j with
  | .obj fs => .ok (jget fs k)
  | _ => .error ()

/-- The recurring access pattern `(j.get(k) or {}).get(k2)` (lines 353, 381,
431 of `src/main.py`): a falsy `k` value is replaced by `{}`, and `.get` on
a truthy non-dict raises, modelled as `.error ()`. -/
def nestedGet (j : Json) (k k2 : String) : Except Unit Json :=
  match j with
  | .obj fs =>
    match (if pyTruthy (jget fs k) then jget fs k else .obj []) with
    | .obj fs2 => .ok (jget fs2 k2)
    | _ => .error ()
  | _ => .error ()

/-- Python subscript `xs[0]`: the head of a list, the first character of a
non-empty string; everything else raises, modelled as `.error ()`. -/
def firstIndex : Json → Except Unit Json
  | .arr (x :: _) => .ok x
  | .str s =>
    match s.data with
    | c :: _ => .ok (.str (String.mk [c]))
    | [] => .error ()
  | _ => .error ()

/-- `str.strip()`. -/
def pyStrip (s : String) : String :=
  String.mk (((s.data.dropWhile pySpace).reverse.dropWhile pySpace).reverse)

/-- `str.lower()` (ASCII). -/
def pyLower (s : String) : String :=
  String.mk (s.data.map Char.toLower)

/-- The client-side envelope check of `start_avatar_training_from_image`
(lines 183-184 of `src/main.py`):
`isinstance(data, dict) and data.get("code") not in (0, None)`. -/
def clientCodeBad (j : Json) : Bool :=
  match j with
  | .obj fs => !(pyEqZero (jget fs "code") || pyIsNone (jget fs "code"))
  | _ => false

/-- `tts.get("data") if isinstance(tts, dict) else None` (line 407). -/
def directData : Json → Json
  | .obj fs => jget fs "data"
  | _ => .null

/-- The audio source of the speech-synthesis step (line 407 of
`src/main.py`):
`(tts.get("data") if isinstance(tts, dict) else None) or
 _first_url_from(tts, exts=(".mp3", ".aac", ".wav", ".m4a"))`,
`none` when the following `if not audio_src` raises. -/
def audioSrcOf (tts : Json) : Option Json :=
  if pyTruthy (directData tts) then some (directData tts)
  else (_first_url_from tts [".mp3", ".aac", ".wav", ".m4a"]).map .str

/-- Fatal pipeline errors: the `RuntimeError`s raised by `run_pipeline` and
the client, the poller's terminal errors, and `pyExn` for any unhandled
Python exception (`AttributeError` / `TypeError` / `KeyError` / ...). -/
inductive PErr where
  | missingImageUrls
  | invalidImageUrl
  | apiError
  | startTrainingFailed
  | missingAvatarId
  | avatarTrainingFailed
  | avatarTimedOut
  | missingAudio
  | noAnchors
  | missingAnchorId
  | videoGenFailed
  | missingTaskId
  | pyExn
deriving DecidableEq, Repr

/-- How one invocation of `run_pipeline` ends: completion (with the
best-guess video URL it printed, if any), the user declining the approval
prompt, or a fatal error. -/
inductive PipeOutcome where
  | finished (videoUrl : Option String)
  | abortedByUser
  | failed (e : PErr)
deriving DecidableEq, Repr

/-- Observable side effects of one pipeline run: poll sleeps performed for
the avatar job, poll sleeps performed for the video job (`run_pipeline`
never calls the video polling loop — it fetches the result exactly once —
so this is always 0 by construction), `video/generate` calls, and
`video/awsResult` fetches. -/
structure Trace where
  avatarPollSleeps : Nat
  videoPollSleeps : Nat
  videoGenCalls : Nat
  videoResultFetches : Nat
deriving DecidableEq, Repr

/-- The mocked environment of one pipeline run: each remote call's response,
the status-fetch sequences and wall clock of the avatar waits, the CLI
flags, and the iteration bound `fuel` of the polling-loop model. -/
structure Env where
  t2i : Json
  auto_approve : Bool
  answer : String
  av_start : Json
  avatarFetch : Nat → Json
  avatarElapsed : Nat → Nat
  lip_sync : Bool
  cont : Json
  avatarFetch2 : Nat → Json
  avatarElapsed2 : Nat → Nat
  tts : Json
  anchors : Json
  vid : Json
  videoResult : Json
  fuel : Nat

/-- The sleep count carried by a polling outcome. -/
def sleepsOf : PollOutcome → Nat
  | .success _ _ s => s
  | .jobFailed _ _ s => s
  | .timedOut _ s => s
  | .exn _ s => s

/-- Steps 5 and 6 of `run_pipeline` (lines 403-444 of `src/main.py`): TTS
audio extraction, anchor lookup, video generation and the one-shot result
fetch.  Returns the outcome together with the number of `video/generate`
calls and `video/awsResult` fetches made. -/
def pipelineFromTts (env : Env) : PipeOutcome × Nat × Nat :=
  match audioSrcOf env.tts with
  | none => (.failed .missingAudio, 0, 0)
  | some _ =>
    let items : Json :=
      match env.anchors with
      | .obj fs => if pyTruthy (jget fs "data") then jget fs "data" else .arr []
      | _ => .arr []
    if !pyTruthy items then (.failed .noAnchors, 0, 0)
    else
      match items with
      | .arr (x :: _) =>
        match x with
        | .obj fs2 =>
          if !pyTruthy (jget fs2 "_id") then (.failed .missingAnchorId, 0, 0)
          else
            match dictGet env.vid "code" with
            | .error _ => (.failed .pyExn, 1, 0)
            | .ok code =>
              if !pyEqZero code then (.failed .videoGenFailed, 1, 0)
              else
                match nestedGet env.vid "data" "_id" with
                | .error _ => (.failed .pyExn, 1, 0)
                | .ok tid =>
                  if !pyTruthy tid then (.failed .missingTaskId, 1, 0)
                  else
                    (.finished
                      (_first_url_from env.videoResult [".mp4", ".m3u8", ".mov", ".webm"]),
                      1, 1)
        | _ => (.failed .pyExn, 0, 0)
      | _ => (.failed .pyExn, 0, 0)

/-- `run_pipeline` (lines 329-444 of `src/main.py`) on a mocked environment:
image selection, approval gate, avatar training start, the avatar wait
(called with its default `timeout_s=1800`), the optional lip-sync step
whose second wait swallows every error (lines 396-401), then
`pipelineFromTts`.  `none` is a model artifact: a polling loop exceeded
the iteration bound `env.fuel`. -/
def run_pipeline (env : Env) : Option (PipeOutcome × Trace) :=
  match nestedGet env.t2i "data" "image_urls" with
  | .error _ => some (.failed .pyExn, ⟨0, 0, 0, 0⟩)
  | .ok iu =>
    if !pyTruthy iu then some (.failed .missingImageUrls, ⟨0, 0, 0, 0⟩)
    else
      match firstIndex iu with
      | .error _ => some (.failed .pyExn, ⟨0, 0, 0, 0⟩)
      | .ok (.str imageUrl) =>
        if !env.auto_approve && !(pyLower (pyStrip env.answer) == "y"
            || pyLower (pyStrip env.answer) == "yes") then
          some (.abortedByUser, ⟨0, 0, 0, 0⟩)
        else if imageUrl.data.contains ' ' then
          some (.failed .invalidImageUrl, ⟨0, 0, 0, 0⟩)
        else if clientCodeBad env.av_start then
          some (.failed .apiError, ⟨0, 0, 0, 0⟩)
        else
          match dictGet env.av_start "code" with
          | .error _ => some (.failed .pyExn, ⟨0, 0, 0, 0⟩)
          | .ok code =>
            if !pyEqZero code then some (.failed .startTrainingFailed, ⟨0, 0, 0, 0⟩)
            else
              match nestedGet env.av_start "data" "_id" with
              | .error _ => some (.failed .pyExn, ⟨0, 0, 0, 0⟩)
              | .ok aid =>
                if !pyTruthy aid then some (.failed .missingAvatarId, ⟨0, 0, 0, 0⟩)
                else
                  match wait_until_avatar_ready env.avatarFetch env.avatarElapsed
                      1800 env.fuel with
                  | none => none
                  | some (.jobFailed _ _ s1) =>
                    some (.failed .avatarTrainingFailed, ⟨s1, 0, 0, 0⟩)
                  | some (.timedOut _ s1) =>
                    some (.failed .avatarTimedOut, ⟨s1, 0, 0, 0⟩)
                  | some (.exn _ s1) => some (.failed .pyExn, ⟨s1, 0, 0, 0⟩)
                  | some (.success _ _ s1) =>
                    if env.lip_sync then
                      match wait_until_avatar_ready env.avatarFetch2 env.avatarElapsed2
                          1800 env.fuel with
                      | none => none
                      | some o2 =>
                        match pipelineFromTts env with
                        | (out, vg, vf) => some (out, ⟨s1 + sleepsOf o2, 0, vg, vf⟩)
                    else
                      match pipelineFromTts env with
                      | (out, vg, vf) => some (out, ⟨s1, 0, vg, vf⟩)
      | .ok _ => some (.failed .pyExn, ⟨0, 0, 0, 0⟩)

/-- A status-fetch response of the avatar endpoint with the given
`current_status`. -/
def statusResp (s : String) : Json :=
  .obj [("code", .num 0), ("data", .obj [("current_status", .str s)])]

/-- A status-fetch response of the video endpoint carrying the given
`status` in its `data` list. -/
def videoResp (s : String) : Json :=
  .obj [("code", .num 0), ("data", .arr [.obj [("status", .str s)]])]

/-- The end-to-end mock scenario of §8 of the spec: every call returns a
success envelope (`code` 0), the avatar status sequence is
`["training", "training", "ready"]`, and the one result fetch of the video
task reports `"completed"` together with `.mp4` and `.jpg` result URLs. -/
def e2eEnv : Env where
  t2i := .obj [("code", .num 0),
    ("data", .obj [("image_urls", .arr [.str "https://x/avatar.jpg"])])]
  auto_approve := true
  answer := ""
  av_start := .obj [("code", .num 0), ("data", .obj [("_id", .str "AV1")])]
  avatarFetch := fun n => if n < 2 then statusResp "training" else statusResp "ready"
  avatarElapsed := fun _ => 0
  lip_sync := false
  cont := .null
  avatarFetch2 := fun _ => .null
  avatarElapsed2 := fun _ => 0
  tts := .obj [("code", .num 0), ("data", .str "https://x/speech.mp3")]
  anchors := .obj [("code", .num 0), ("data", .arr [.obj [("_id", .str "ANCHOR1")]])]
  vid := .obj [("code", .num 0), ("data", .obj [("_id", .str "TASK1")])]
  videoResult := .obj [("code", .num 0),
    ("data", .arr [.obj [("status", .str "completed"),
      ("result", .str "https://x/final.mp4 https://x/thumb.jpg")]])]
  fuel := 10

/-! ## Helper lemmas about the polling loop -/

theorem classify_str_iff (ok bad : List String) (s : String) :
    (classify ok bad (.str s) = .ok .success ↔ s ∈ ok)
    ∧ (classify ok bad (.str s) = .ok .failure ↔ s ∉ ok ∧ s ∈ bad)
    ∧ (classify ok bad (.str s) = .ok .pending ↔ s ∉ ok ∧ s ∉ bad) := by
  refine ⟨?_, ?_, ?_⟩ <;> by_cases h1 : s ∈ ok <;> by_cases h2 : s ∈ bad <;>
    simp [classify, h1, h2]

theorem pollAux_step_success {e : Json → Except Unit Json} {ok bad : List String}
    {fetch : Nat → Json} {el : Nat → Nat} {t fuel n : Nat}
    (h : classifyFetched e ok bad (fetch n) = .ok .success) :
    pollAux e ok bad fetch el t (fuel + 1) n = some (.success (fetch n) (n + 1) n) := by
  simp [pollAux, h]

theorem pollAux_step_failure {e : Json → Except Unit Json} {ok bad : List String}
    {fetch : Nat → Json} {el : Nat → Nat} {t fuel n : Nat}
    (h : classifyFetched e ok bad (fetch n) = .ok .failure) :
    pollAux e ok bad fetch el t (fuel + 1) n = some (.jobFailed (fetch n) (n + 1) n) := by
  simp [pollAux, h]

theorem pollAux_step_exn {e : Json → Except Unit Json} {ok bad : List String}
    {fetch : Nat → Json} {el : Nat → Nat} {t fuel n : Nat}
    (h : classifyFetched e ok bad (fetch n) = .error ()) :
    pollAux e ok bad fetch el t (fuel + 1) n = some (.exn (n + 1) n) := by
  simp [pollAux, h]

theorem pollAux_step_timeout {e : Json → Except Unit Json} {ok bad : List String}
    {fetch : Nat → Json} {el : Nat → Nat} {t fuel n : Nat}
    (h : classifyFetched e ok bad (fetch n) = .ok .pending) (ht : t < el n) :
    pollAux e ok bad fetch el t (fuel + 1) n = some (.timedOut (n + 1) n) := by
  simp [pollAux, h, ht]

theorem pollAux_step_pending {e : Json → Except Unit Json} {ok bad : List String}
    {fetch : Nat → Json} {el : Nat → Nat} {t fuel n : Nat}
    (h : classifyFetched e ok bad (fetch n) = .ok .pending) (ht : ¬ t < el n) :
    pollAux e ok bad fetch el t (fuel + 1) n
      = pollAux e ok bad fetch el t fuel (n + 1) := by
  simp [pollAux, h, ht]

/-- A `timedOut` exit happens only at an iteration whose status classified
as pending and whose elapsed time exceeded the timeout; it reports that
iteration's fetch and sleep counts. -/
theorem pollAux_timedOut_inv {e : Json → Except Unit Json} {ok bad : List String}
    {fetch : Nat → Json} {el : Nat → Nat} {t : Nat} :
    ∀ {fuel k f s : Nat},
      pollAux e ok bad fetch el t fuel k = some (.timedOut f s) →
      ∃ n, k ≤ n ∧ f = n + 1 ∧ s = n
        ∧ classifyFetched e ok bad (fetch n) = .ok .pending ∧ t < el n := by
  intro fuel
  induction fuel with
  | zero => intro k f s h; simp [pollAux] at h
  | succ fuel ih =>
    intro k f s h
    rw [pollAux] at h
    match hc : classifyFetched e ok bad (fetch k) with
    | .error u => cases u; rw [hc] at h; simp at h
    | .ok .success => rw [hc] at h; simp at h
    | .ok .failure => rw [hc] at h; simp at h
    | .ok .pending =>
      rw [hc] at h
      by_cases ht : t < el k
      · simp [ht] at h
        exact ⟨k, le_refl k, h.1.symm, h.2.symm, hc, ht⟩
      · simp [ht] at h
        obtain ⟨n, hkn, hf, hs, hcl, hel⟩ := ih h
        exact ⟨n, le_trans (Nat.le_succ k) hkn, hf, hs, hcl, hel⟩

/-- If every fetched status classifies as pending and the clock exceeds the
timeout somewhere inside the fuel window, the loop exits with `timedOut`
at some such iteration. -/
theorem pollAux_pending_forever {e : Json → Except Unit Json} {ok bad : List String}
    {fetch : Nat → Json} {el : Nat → Nat} {t : Nat}
    (hp : ∀ m, classifyFetched e ok bad (fetch m) = .ok .pending) :
    ∀ fuel k n, k ≤ n → n < k + fuel → t < el n →
      ∃ m, k ≤ m ∧ m ≤ n ∧ t < el m
        ∧ pollAux e ok bad fetch el t fuel k = some (.timedOut (m + 1) m) := by
  intro fuel
  induction fuel with
  | zero => intro k n hkn hlt; omega
  | succ fuel ih =>
    intro k n hkn hlt hel
    by_cases hk : t < el k
    · exact ⟨k, le_refl k, hkn, hk, pollAux_step_timeout (hp k) hk⟩
    · have hne : k ≠ n := by rintro rfl; exact hk hel
      have h1 : k + 1 ≤ n := by omega
      have h2 : n < (k + 1) + fuel := by omega
      obtain ⟨m, hm1, hm2, hm3, hm4⟩ := ih (k + 1) n h1 h2 hel
      exact ⟨m, by omega, hm2, hm3, by rw [pollAux_step_pending (hp k) hk]; exact hm4⟩

/-! ## Helper lemmas about the extractor -/

theorem pickByExt_eq_none_of {urls exts : List String}
    (h : ∀ e ∈ exts, ∀ v ∈ urls, extMatches v e = false) :
    pickByExt urls exts = none := by
  induction exts with
  | nil => rfl
  | cons e rest ih =>
    have hf : urls.find? (fun u => extMatches u e) = none :=
      List.find?_eq_none.mpr fun v hv => by
        simp [h e (List.mem_cons_self e rest) v hv]
    rw [pickByExt, hf]
    exact ih fun e' he' v hv => h e' (List.mem_cons_of_mem e he') v hv

theorem pickByExt_skip {urls : List String} {pre : List String} (exts2 : List String)
    (h : ∀ e ∈ pre, ∀ v ∈ urls, extMatches v e = false) :
    pickByExt urls (pre ++ exts2) = pickByExt urls exts2 := by
  induction pre with
  | nil => rfl
  | cons e pre' ih =>
    have hf : urls.find? (fun u => extMatches u e) = none :=
      List.find?_eq_none.mpr fun v hv => by
        simp [h e (List.mem_cons_self e pre') v hv]
    rw [List.cons_append, pickByExt, hf]
    exact ih fun e' he' v hv => h e' (List.mem_cons_of_mem e he') v hv

theorem findallAux_eq_nil : ∀ (fuel : Nat) (cs : List Char),
    containsUrl cs = false → findallAux fuel cs = [] := by
  intro fuel
  induction fuel with
  | zero => intro cs _; rfl
  | succ fuel ih =>
    intro cs h
    match cs with
    | [] => rfl
    | c :: cs' =>
      rw [containsUrl] at h
      rcases Bool.or_eq_false_iff.mp h with ⟨h1, h2⟩
      rw [findallAux]
      cases hs : schemeSplit (c :: cs') with
      | none => exact ih cs' h2
      | some k =>
        have hrun : (((c :: cs').drop k).takeWhile urlAllowed).isEmpty = true := by
          rw [matchAt, hs] at h1
          simpa using h1
        simp only [hrun, if_true]
        exact ih cs' h2

theorem flatMap_findUrls_eq_nil : ∀ {l : List String},
    (∀ s ∈ l, containsUrl s.data = false) → l.flatMap findUrls = [] := by
  intro l
  induction l with
  | nil => intro _; rfl
  | cons s rest ih =>
    intro h
    rw [List.flatMap_cons]
    have hs : findUrls s = [] := by
      rw [findUrls, findallAux_eq_nil _ _ (h s (List.mem_cons_self s rest))]
      rfl
    rw [hs, List.nil_append]
    exact ih fun s' hs' => h s' (List.mem_cons_of_mem s hs')

theorem collectUrls_eq_nil {o : Json}
    (h : ∀ s ∈ stringLeaves o, containsUrl s.data = false) :
    collectUrls o = [] := by
  rw [collectUrls]
  exact flatMap_findUrls_eq_nil h

/-! ## Claims -/

/-- C1: every status string is classified into exactly one of the three
buckets, with the avatar success set {ready, trained, succeeded,
completed}, the video success set {ready, success, completed}, the failure
set {failed, error} for both, and everything else pending. -/
theorem status_vocabulary_classification (s : String) :
    (classify avatarOk avatarBad (.str s) = .ok .success ↔
      (s = "ready" ∨ s = "trained" ∨ s = "succeeded" ∨ s = "completed"))
    ∧ (classify avatarOk avatarBad (.str s) = .ok .failure ↔
      (s = "failed" ∨ s = "error"))
    ∧ (classify avatarOk avatarBad (.str s) = .ok .pending ↔
      ¬((s = "ready" ∨ s = "trained" ∨ s = "succeeded" ∨ s = "completed")
        ∨ (s = "failed" ∨ s = "error")))
    ∧ (classify videoOk videoBad (.str s) = .ok .success ↔
      (s = "ready" ∨ s = "success" ∨ s = "completed"))
    ∧ (classify videoOk videoBad (.str s) = .ok .failure ↔
      (s = "failed" ∨ s = "error"))
    ∧ (classify videoOk videoBad (.str s) = .ok .pending ↔
      ¬((s = "ready" ∨ s = "success" ∨ s = "completed")
        ∨ (s = "failed" ∨ s = "error"))) := by
  have ha := classify_str_iff avatarOk avatarBad s
  have hv := classify_str_iff videoOk videoBad s
  simp only [avatarOk, avatarBad, videoOk, videoBad, List.mem_cons,
    List.not_mem_nil, or_false] at ha hv
  have hda : (s = "failed" ∨ s = "error") →
      ¬(s = "ready" ∨ s = "trained" ∨ s = "succeeded" ∨ s = "completed") := by
    rintro (rfl | rfl) (h | h | h | h) <;> simp_all
  have hdv : (s = "failed" ∨ s = "error") →
      ¬(s = "ready" ∨ s = "success" ∨ s = "completed") := by
    rintro (rfl | rfl) (h | h | h) <;> simp_all
  simp only [avatarOk, avatarBad, videoOk, videoBad]
  refine ⟨ha.1, ?_, ?_, hv.1, ?_, ?_⟩
  · rw [ha.2.1]
    exact ⟨fun h => h.2, fun h => ⟨hda h, h⟩⟩
  · rw [ha.2.2]
    exact (not_or).symm
  · rw [hv.2.1]
    exact ⟨fun h => h.2, fun h => ⟨hdv h, h⟩⟩
  · rw [hv.2.2]
    exact (not_or).symm

theorem status_vocabulary_classification_witness :
    classify avatarOk avatarBad (.str "trained") = .ok .success
    ∧ classify videoOk videoBad (.str "trained") = .ok .pending :=
  ⟨(status_vocabulary_classification "trained").1.mpr (Or.inr (Or.inl rfl)),
   (status_vocabulary_classification "trained").2.2.2.2.2.mpr (by decide)⟩

/-- C2: a success status on the first fetch makes the poller return the
raw fetched response at once — one fetch, zero sleeps. -/
theorem poller_success_returns_immediately
    (fetchA fetchV : Nat → Json) (elA elV : Nat → Nat)
    (tA tV fuelA fuelV : Nat) (s : String) :
    (s ∈ avatarOk → avatar_status (fetchA 0) = .ok (.str s) →
      wait_until_avatar_ready fetchA elA tA (fuelA + 1)
        = some (.success (fetchA 0) 1 0))
    ∧ (s ∈ videoOk → video_status (fetchV 0) = .ok (.str s) →
      wait_until_video_ready fetchV elV tV (fuelV + 1)
        = some (.success (fetchV 0) 1 0)) := by
  constructor
  · intro hmem hst
    have hc : classifyFetched avatar_status avatarOk avatarBad (fetchA 0)
        = .ok .success := by
      simp only [classifyFetched, hst]
      exact (classify_str_iff avatarOk avatarBad s).1.mpr hmem
    exact pollAux_step_success hc
  · intro hmem hst
    have hc : classifyFetched video_status videoOk videoBad (fetchV 0)
        = .ok .success := by
      simp only [classifyFetched, hst]
      exact (classify_str_iff videoOk videoBad s).1.mpr hmem
    exact pollAux_step_success hc

theorem poller_success_returns_immediately_witness :
    wait_until_avatar_ready (fun _ => statusResp "ready") (fun _ => 0) 1800 10
      = some (.success (statusResp "ready") 1 0)
    ∧ wait_until_video_ready (fun _ => videoResp "completed") (fun _ => 0) 1800 10
      = some (.success (videoResp "completed") 1 0) :=
  ⟨(poller_success_returns_immediately (fun _ => statusResp "ready")
      (fun _ => .null) (fun _ => 0) (fun _ => 0) 1800 1800 9 9 "ready").1
      (by decide) rfl,
   (poller_success_returns_immediately (fun _ => .null)
      (fun _ => videoResp "completed") (fun _ => 0) (fun _ => 0) 1800 1800 9 9
      "completed").2 (by decide) rfl⟩

/-- C3: a failure status makes the poller raise `JobFailed` carrying the
raw response, on the same iteration — one fetch, zero sleeps, no retry. -/
theorem poller_failure_raises_immediately
    (fetchA fetchV : Nat → Json) (elA elV : Nat → Nat)
    (tA tV fuelA fuelV : Nat) (s : String) :
    (s ∈ avatarBad → avatar_status (fetchA 0) = .ok (.str s) →
      wait_until_avatar_ready fetchA elA tA (fuelA + 1)
        = some (.jobFailed (fetchA 0) 1 0))
    ∧ (s ∈ videoBad → video_status (fetchV 0) = .ok (.str s) →
      wait_until_video_ready fetchV elV tV (fuelV + 1)
        = some (.jobFailed (fetchV 0) 1 0)) := by
  constructor
  · intro hmem hst
    have hnot : s ∉ avatarOk := by
      simp only [avatarBad, List.mem_cons, List.not_mem_nil, or_false] at hmem
      rcases hmem with rfl | rfl <;> decide
    have hc : classifyFetched avatar_status avatarOk avatarBad (fetchA 0)
        = .ok .failure := by
      simp only [classifyFetched, hst]
      exact (classify_str_iff avatarOk avatarBad s).2.1.mpr ⟨hnot, hmem⟩
    exact pollAux_step_failure hc
  · intro hmem hst
    have hnot : s ∉ videoOk := by
      simp only [videoBad, List.mem_cons, List.not_mem_nil, or_false] at hmem
      rcases hmem with rfl | rfl <;> decide
    have hc : classifyFetched video_status videoOk videoBad (fetchV 0)
        = .ok .failure := by
      simp only [classifyFetched, hst]
      exact (classify_str_iff videoOk videoBad s).2.1.mpr ⟨hnot, hmem⟩
    exact pollAux_step_failure hc

theorem poller_failure_raises_immediately_witness :
    wait_until_avatar_ready (fun _ => statusResp "failed") (fun _ => 0) 1800 10
      = some (.jobFailed (statusResp "failed") 1 0)
    ∧ wait_until_video_ready (fun _ => videoResp "error") (fun _ => 0) 1800 10
      = some (.jobFailed (videoResp "error") 1 0) :=
  ⟨(poller_failure_raises_immediately (fun _ => statusResp "failed")
      (fun _ => .null) (fun _ => 0) (fun _ => 0) 1800 1800 9 9 "failed").1
      (by decide) rfl,
   (poller_failure_raises_immediately (fun _ => .null)
      (fun _ => videoResp "error") (fun _ => 0) (fun _ => 0) 1800 1800 9 9
      "error").2 (by decide) rfl⟩

/-- C4: with every fetch pending, a clock starting at or below the timeout
and eventually exceeding it, the poller sleeps and retries at least once
(`1 ≤ n` sleeps, `n + 1 ≥ 2` fetches) and exits with `JobTimedOut`. -/
theorem poller_pending_times_out
    (fetchA fetchV : Nat → Json) (elA elV : Nat → Nat) (tA tV N M : Nat) :
    ((∀ n, classifyFetched avatar_status avatarOk avatarBad (fetchA n)
        = .ok .pending) →
      elA 0 ≤ tA → tA < elA N →
      ∃ n, 1 ≤ n ∧ n ≤ N ∧
        wait_until_avatar_ready fetchA elA tA (N + 1)
          = some (.timedOut (n + 1) n))
    ∧ ((∀ n, classifyFetched video_status videoOk videoBad (fetchV n)
        = .ok .pending) →
      elV 0 ≤ tV → tV < elV M →
      ∃ n, 1 ≤ n ∧ n ≤ M ∧
        wait_until_video_ready fetchV elV tV (M + 1)
          = some (.timedOut (n + 1) n)) := by
  constructor
  · intro hp h0 hN
    obtain ⟨m, _, hm2, hm3, hm4⟩ :=
      pollAux_pending_forever hp (N + 1) 0 N (Nat.zero_le N) (by omega) hN
    refine ⟨m, ?_, hm2, hm4⟩
    rcases Nat.eq_zero_or_pos m with rfl | h
    · omega
    · exact h
  · intro hp h0 hM
    obtain ⟨m, _, hm2, hm3, hm4⟩ :=
      pollAux_pending_forever hp (M + 1) 0 M (Nat.zero_le M) (by omega) hM
    refine ⟨m, ?_, hm2, hm4⟩
    rcases Nat.eq_zero_or_pos m with rfl | h
    · omega
    · exact h

theorem poller_pending_times_out_witness :
    ∃ n, 1 ≤ n ∧ n ≤ 6 ∧
      wait_until_avatar_ready (fun _ => statusResp "training") (fun k => k) 5 7
        = some (.timedOut (n + 1) n) :=
  (poller_pending_times_out (fun _ => statusResp "training") (fun _ => .null)
      (fun k => k) (fun _ => 0) 5 0 6 0).1
    (fun _ => rfl) (by decide) (by decide)

/-- C5: the extractor tries the caller's extensions in order and returns
the first accumulated URL whose path component matches (case-insensitive);
with no match anywhere it returns the first URL in discovery order; on the
two-URL example payload the `.mp4`-first preference picks the `.mp4` URL
and the reversed preference the `.jpg` URL. -/
theorem extractor_extension_preference :
    (∀ (o : Json) (pre post us vs : List String) (ext u : String),
      (∀ e ∈ pre, ∀ v ∈ collectUrls o, extMatches v e = false) →
      collectUrls o = us ++ u :: vs →
      extMatches u ext = true →
      (∀ v ∈ us, extMatches v ext = false) →
      _first_url_from o (pre ++ ext :: post) = some u)
    ∧ (∀ (o : Json) (exts : List String),
      (∀ e ∈ exts, ∀ v ∈ collectUrls o, extMatches v e = false) →
      _first_url_from o exts = (collectUrls o).head?)
    ∧ _first_url_from
        (.obj [("a", .str "https://x/a.jpg"), ("b", .str "https://x/b.mp4")])
        [".mp4", ".jpg"] = some "https://x/b.mp4"
    ∧ _first_url_from
        (.obj [("a", .str "https://x/a.jpg"), ("b", .str "https://x/b.mp4")])
        [".jpg", ".mp4"] = some "https://x/a.jpg" := by
  refine ⟨?_, ?_, by decide, by decide⟩
  · intro o pre post us vs ext u hpre hurls hm hus
    have hfind : (collectUrls o).find? (fun v => extMatches v ext) = some u := by
      rw [List.find?_eq_some]
      exact ⟨hm, us, vs, hurls, fun a ha => by simp [hus a ha]⟩
    have hpick : pickByExt (collectUrls o) (pre ++ ext :: post) = some u := by
      rw [pickByExt_skip (ext :: post) hpre]
      simp only [pickByExt, hfind]
    simp only [_first_url_from, hpick]
  · intro o exts h
    simp only [_first_url_from, pickByExt_eq_none_of h]

theorem extractor_extension_preference_witness :
    _first_url_from
      (.obj [("a", .str "https://x/a.jpg"), ("b", .str "https://x/b.mp4")])
      [".mp4", ".jpg"] = some "https://x/b.mp4" :=
  extractor_extension_preference.1
    (.obj [("a", .str "https://x/a.jpg"), ("b", .str "https://x/b.mp4")])
    [] [".jpg"] ["https://x/a.jpg"] [] ".mp4" "https://x/b.mp4"
    (by decide) (by decide) (by decide) (by decide)

/-- C6: a payload none of whose string leaves contains a URL-shaped
substring makes the extractor report "no artifact found" (`none`), not an
exception. -/
theorem extractor_no_url_returns_none (o : Json) (exts : List String)
    (h : ∀ s ∈ stringLeaves o, containsUrl s.data = false) :
    _first_url_from o exts = none := by
  have hc := collectUrls_eq_nil h
  have hn : pickByExt ([] : List String) exts = none :=
    pickByExt_eq_none_of fun e _ v hv => absurd hv (List.not_mem_nil v)
  simp only [_first_url_from, hc, hn, List.head?_nil]

theorem extractor_no_url_returns_none_witness :
    _first_url_from (.obj [("a", .str "hello world"), ("b", .num 3)]) [".mp4"]
      = none :=
  extractor_no_url_returns_none
    (.obj [("a", .str "hello world"), ("b", .num 3)]) [".mp4"] (by decide)

/-- C7: the speech-synthesis step takes the audio source from the
response's `data` field when that is truthy, otherwise from the extractor
with audio extensions; when both yield nothing the pipeline fails with the
missing-artifact error and performs zero video-generation calls. -/
theorem tts_audio_source_selection (tts : Json) (env : Env) :
    (pyTruthy (directData tts) = true → audioSrcOf tts = some (directData tts))
    ∧ (pyTruthy (directData tts) = false →
      audioSrcOf tts
        = (_first_url_from tts [".mp3", ".aac", ".wav", ".m4a"]).map .str)
    ∧ (audioSrcOf env.tts = none →
      pipelineFromTts env = (.failed .missingAudio, 0, 0)) := by
  refine ⟨?_, ?_, ?_⟩
  · intro h; simp [audioSrcOf, h]
  · intro h; simp [audioSrcOf, h]
  · intro h; simp [pipelineFromTts, h]

theorem tts_audio_source_selection_witness :
    audioSrcOf (.obj [("data", .str "https://x/speech.mp3")])
      = some (.str "https://x/speech.mp3")
    ∧ pipelineFromTts { e2eEnv with tts := .null }
      = (.failed .missingAudio, 0, 0) :=
  ⟨(tts_audio_source_selection (.obj [("data", .str "https://x/speech.mp3")])
      e2eEnv).1 rfl,
   (tts_audio_source_selection .null { e2eEnv with tts := .null }).2.2 rfl⟩

/-- C8: on the mock scenario (success envelopes everywhere, avatar statuses
training/training/ready, video "completed" on the single result fetch) the
pipeline finishes, prints the `.mp4`-preferred URL, slept 2 times for the
avatar job and 0 times for the video job. -/
theorem end_to_end_pipeline_run :
    run_pipeline e2eEnv
      = some (.finished (some "https://x/final.mp4"),
          { avatarPollSleeps := 2, videoPollSleeps := 0,
            videoGenCalls := 1, videoResultFetches := 1 }) := by
  decide

/-- C9: a fetched video response without the expected shape (missing /
null / empty `data`, or a first element without `status`) raises an
unhandled structural exception in the video poller — not `JobFailed`, not
`JobTimedOut`, not pending — while the avatar poller reads a missing
status as `None`, classifies it pending, and keeps polling. -/
theorem video_poller_structural_exception
    (fs gs : List (String × Json)) (rest : List Json)
    (fetchA fetchV : Nat → Json) (elA elV : Nat → Nat)
    (tA tV fuelA fuelV : Nat) :
    (List.lookup "data" fs = none → video_status (.obj fs) = .error ())
    ∧ (List.lookup "data" fs = some .null → video_status (.obj fs) = .error ())
    ∧ (List.lookup "data" fs = some (.arr []) →
        video_status (.obj fs) = .error ())
    ∧ (List.lookup "data" fs = some (.arr (.obj gs :: rest)) →
        List.lookup "status" gs = none → video_status (.obj fs) = .error ())
    ∧ (video_status (fetchV 0) = .error () →
        wait_until_video_ready fetchV elV tV (fuelV + 1) = some (.exn 1 0))
    ∧ (List.lookup "data" fs = none → avatar_status (.obj fs) = .ok .null)
    ∧ (List.lookup "data" fs = some (.obj gs) →
        List.lookup "current_status" gs = none →
        avatar_status (.obj fs) = .ok .null)
    ∧ (avatar_status (fetchA 0) = .ok .null → ¬ tA < elA 0 →
        wait_until_avatar_ready fetchA elA tA (fuelA + 1)
          = pollAux avatar_status avatarOk avatarBad fetchA elA tA fuelA 1) := by
  refine ⟨?_, ?_, ?_, ?_, ?_, ?_, ?_, ?_⟩
  · intro h; simp [video_status, jget, h]
  · intro h; simp [video_status, jget, h]
  · intro h; simp [video_status, jget, h]
  · intro h h2; simp [video_status, jget, h, h2]
  · intro h
    have hc : classifyFetched video_status videoOk videoBad (fetchV 0)
        = .error () := by simp [classifyFetched, h]
    exact pollAux_step_exn hc
  · intro h; simp [avatar_status, jget, h, pyTruthy]
  · intro h h2
    simp only [avatar_status, jget, h, Option.getD_some]
    split_ifs <;> simp [jget, h2]
  · intro hst hel
    have hc : classifyFetched avatar_status avatarOk avatarBad (fetchA 0)
        = .ok .pending := by simp [classifyFetched, hst, classify]
    exact pollAux_step_pending hc hel

theorem video_poller_structural_exception_witness :
    wait_until_video_ready (fun _ => .obj []) (fun _ => 0) 1800 10
      = some (.exn 1 0)
    ∧ wait_until_avatar_ready (fun _ => .obj [("code", .num 0)]) (fun _ => 0)
        1800 10
      = pollAux avatar_status avatarOk avatarBad
          (fun _ => .obj [("code", .num 0)]) (fun _ => 0) 1800 9 1 :=
  ⟨(video_poller_structural_exception [] [] [] (fun _ => .null)
      (fun _ => .obj []) (fun _ => 0) (fun _ => 0) 1800 1800 9 9).2.2.2.2.1 rfl,
   (video_poller_structural_exception [] [] [] (fun _ => .obj [("code", .num 0)])
      (fun _ => .null) (fun _ => 0) (fun _ => 0) 1800 1800 9 9).2.2.2.2.2.2.2
      rfl (by decide)⟩

/-- C10: both pollers classify the fetched status before checking the
deadline: for any clock and any timeout (including zero), a success or
failure status on the first fetch wins, and a `timedOut` exit can only
come from an iteration whose status was pending with the deadline
exceeded. -/
theorem classification_precedes_deadline
    (fetchA fetchV : Nat → Json) (elA elV : Nat → Nat)
    (tA tV fuelA fuelV fA sA fV sV : Nat) :
    (classifyFetched avatar_status avatarOk avatarBad (fetchA 0) = .ok .success →
      wait_until_avatar_ready fetchA elA tA (fuelA + 1)
        = some (.success (fetchA 0) 1 0))
    ∧ (classifyFetched avatar_status avatarOk avatarBad (fetchA 0) = .ok .failure →
      wait_until_avatar_ready fetchA elA tA (fuelA + 1)
        = some (.jobFailed (fetchA 0) 1 0))
    ∧ (classifyFetched video_status videoOk videoBad (fetchV 0) = .ok .success →
      wait_until_video_ready fetchV elV tV (fuelV + 1)
        = some (.success (fetchV 0) 1 0))
    ∧ (classifyFetched video_status videoOk videoBad (fetchV 0) = .ok .failure →
      wait_until_video_ready fetchV elV tV (fuelV + 1)
        = some (.jobFailed (fetchV 0) 1 0))
    ∧ (wait_until_avatar_ready fetchA elA tA fuelA = some (.timedOut fA sA) →
      ∃ n, fA = n + 1 ∧ sA = n
        ∧ classifyFetched avatar_status avatarOk avatarBad (fetchA n)
            = .ok .pending
        ∧ tA < elA n)
    ∧ (wait_until_video_ready fetchV elV tV fuelV = some (.timedOut fV sV) →
      ∃ n, fV = n + 1 ∧ sV = n
        ∧ classifyFetched video_status videoOk videoBad (fetchV n)
            = .ok .pending
        ∧ tV < elV n) := by
  refine ⟨fun h => pollAux_step_success h, fun h => pollAux_step_failure h,
    fun h => pollAux_step_success h, fun h => pollAux_step_failure h, ?_, ?_⟩
  · intro h
    obtain ⟨n, _, hf, hs, hc, he⟩ := pollAux_timedOut_inv h
    exact ⟨n, hf, hs, hc, he⟩
  · intro h
    obtain ⟨n, _, hf, hs, hc, he⟩ := pollAux_timedOut_inv h
    exact ⟨n, hf, hs, hc, he⟩

theorem classification_precedes_deadline_witness :
    wait_until_avatar_ready (fun _ => statusResp "ready") (fun _ => 100) 0 10
      = some (.success (statusResp "ready") 1 0)
    ∧ wait_until_video_ready (fun _ => videoResp "failed") (fun _ => 100) 0 10
      = some (.jobFailed (videoResp "failed") 1 0) :=
  ⟨(classification_precedes_deadline (fun _ => statusResp "ready")
      (fun _ => .null) (fun _ => 100) (fun _ => 0) 0 0 9 9 0 0 0 0).1 rfl,
   (classification_precedes_deadline (fun _ => .null)
      (fun _ => videoResp "failed") (fun _ => 0) (fun _ => 100) 0 0 9 9
      0 0 0 0).2.2.2.1 rfl⟩

end A2E
